import Mathlib

/-!
Verification of the VTOL VR map export pipeline
(`src/scripts/vtol_export_map_algorithm.py`, class `VtolExportMapAlgorithmV2`).

The per-pixel numeric formulas that the algorithm hands to the external
`gdal:rastercalculator` / `gdal:proximity` / `gdal:rasterize` operators are
embedded shallowly below:

* exact decimal constants are modelled as exact rationals (the Python source
  writes them as decimal literals into gdal formulas);
* the continuous blend stage, which uses `pow` with fractional exponents, is
  modelled over `ℝ` with `Real.rpow`;
* writing a float band to a Byte (8-bit) output band saturates to `[0, 255]`
  (GDAL's buffer conversion clamps out-of-range values, it does not wrap);
* the city rasterization is modelled as a fold over an abstract pixel
  coverage predicate with "later feature wins" paint order, which is the
  documented contract of `gdal:rasterize`.
-/

namespace VtolExport

/-- `ALTITUDE_RESOLUTION = 1520.0 / 255.0`, the class constant of
`VtolExportMapAlgorithmV2` (meters per encoded height step). -/
def ALTITUDE_RESOLUTION : ℚ := 1520 / 255

/-- `HORIZONTAL_RESOLUTION = 153.6`, the class constant (meters per pixel). -/
def HORIZONTAL_RESOLUTION : ℚ := 153.6

/-- `height_step = 5.9607843137`, the local constant of `_create_height`. -/
def heightStep : ℚ := 5.9607843137

/-- `pixel_size = 153.6`, the local constant of `_create_height`. -/
def pixelSize : ℚ := 153.6

/-- `zero_offset = 80 - 2.5098039219`, the local constant of `_create_height`
added to the blended surface before quantization. -/
def zeroOffset : ℚ := 80 - 2.5098039219

/-- `SHORELINE_BIAS_VALUES = [0.2, 0.5, 1.0, 2.5, 5.0]`, the class constant
from which `_create_height` selects `water_retention` by enum index. -/
def SHORELINE_BIAS_VALUES : List ℚ := [0.2, 0.5, 1.0, 2.5, 5.0]

/-- `water_retention = self.SHORELINE_BIAS_VALUES[water_retention_index]`
in `_create_height` (the index comes from the shoreline-bias enum, 0..4). -/
def waterRetention (idx : Fin 5) : ℚ := SHORELINE_BIAS_VALUES.getD idx.val 0

/-!
## Land/water classifier (steps 2 and 4 of `_create_height`)

Step 2 (`hires_terrain`) runs the gdal formula
`((A - sea_level) > 0) * (A - sea_level)` on the reprojected source DEM.
Step 4 (`hires_mask`) runs `A > 0` on `hires_terrain`, producing a Byte
raster whose value is `1` on land and `0` on water.
-/

/-- Per-pixel value of the `hires_terrain` raster:
`((A - sea_level) > 0) * (A - sea_level)` with `A` the source elevation. -/
def hiresTerrain (elevation seaLevel : ℚ) : ℚ :=
  if 0 < elevation - seaLevel then elevation - seaLevel else 0

/-- Per-pixel value of the `hires_mask` raster: gdal formula `A > 0`
applied to `hires_terrain` (Byte output, `1` = land, `0` = water). -/
def hiresMask (terrain : ℚ) : ℕ :=
  if 0 < terrain then 1 else 0

/-- The composed land/water classifier of the export pipeline:
`1` marks land, `0` marks water. -/
def classifyLand (elevation seaLevel : ℚ) : ℕ :=
  hiresMask (hiresTerrain elevation seaLevel)

/-!
## Quantization (step 10 of `_create_height`)

The final gdal formula is
`round(maximum(0, minimum(blend + zero_offset, 6080)) * (1 / height_step))`.
The clamp to `[0, 6080]` happens before the division by the step size.
-/

/-- The quantization applied by `_create_height` to the blended surface
value `v`: `round(maximum(0, minimum(v + zero_offset, 6080)) * (1 / height_step))`. -/
def quantize (v : ℚ) : ℤ :=
  round (max 0 (min (v + zeroOffset) 6080) * (1 / heightStep))

/-!
## Channel-split height images (`_write_height_x`)

For image index `i` in `0..3` the gdal formula for band 1 (R) is
`(A >= offset) * (A - offset)` with `offset = i * 255`, written to a Byte
band (which saturates to `[0, 255]`).  Band 2 (G) is the city burn term,
band 3 (B) is the constant `0` and band 4 (A) is the constant `255`.
-/

/-- Saturating conversion of a computed value to a Byte band, as performed
by GDAL when the raster calculator writes its float result to an 8-bit
output band. -/
def byteSat (n : ℤ) : ℕ :=
  (max 0 (min n 255)).toNat

/-- The clamp the spec describes for the 4-channel rule:
`clamp(x, 0, 255)`. -/
def clamp255 (x : ℤ) : ℤ :=
  max 0 (min x 255)

/-- Band 1 (R) of `height{i}.png`: the gdal formula
`(A >= offset) * (A - offset)` with `offset = i * 255`, saturated on the
Byte write. -/
def writeHeightXRed (a : ℕ) (i : Fin 4) : ℕ :=
  byteSat (if 255 * (i.val : ℤ) ≤ (a : ℤ) then (a : ℤ) - 255 * i.val else 0)

/-- `CITY_TYPE_BURNS`, the class constant: per city level (rows RURAL,
SUBURB, MIDTOWN, DOWNTOWN_1, DOWNTOWN_2) the burn colors; column 0 is used
by `height.png`, columns `1..4` by `height0..height3.png`. -/
def CITY_TYPE_BURNS : List (List ℕ) :=
  [[51, 205, 0, 0, 0],
   [99, 255, 143, 0, 0],
   [149, 255, 255, 87, 0],
   [199, 255, 255, 255, 31],
   [249, 255, 255, 255, 229]]

/-- The city burn term of `_write_height_x` for `height{i}.png`: the sum
`((B == 1) * c1) + ... + ((B == 5) * c5)` with `ck` the color of level `k`
at column `i + 1` of `CITY_TYPE_BURNS`. -/
def cityTermX (city : ℕ) (i : Fin 4) : ℕ :=
  (if city = 1 then (CITY_TYPE_BURNS.getD 0 []).getD (i.val + 1) 0 else 0) +
  (if city = 2 then (CITY_TYPE_BURNS.getD 1 []).getD (i.val + 1) 0 else 0) +
  (if city = 3 then (CITY_TYPE_BURNS.getD 2 []).getD (i.val + 1) 0 else 0) +
  (if city = 4 then (CITY_TYPE_BURNS.getD 3 []).getD (i.val + 1) 0 else 0) +
  (if city = 5 then (CITY_TYPE_BURNS.getD 4 []).getD (i.val + 1) 0 else 0)

/-- The city burn term of `_write_height`: the same sum but using column 0
of `CITY_TYPE_BURNS` for every level. -/
def cityTermSingle (city : ℕ) : ℕ :=
  (if city = 1 then (CITY_TYPE_BURNS.getD 0 []).getD 0 0 else 0) +
  (if city = 2 then (CITY_TYPE_BURNS.getD 1 []).getD 0 0 else 0) +
  (if city = 3 then (CITY_TYPE_BURNS.getD 2 []).getD 0 0 else 0) +
  (if city = 4 then (CITY_TYPE_BURNS.getD 3 []).getD 0 0 else 0) +
  (if city = 5 then (CITY_TYPE_BURNS.getD 4 []).getD 0 0 else 0)

/-- The full RGBA pixel written by `_write_height_x` for `height{i}.png`
when a city layer is present: bands are (R, G, B, A) with
R = `(A >= offset) * (A - offset)`, G = the city burn term,
B = the constant band `--calc "0"`, A = the constant band `--calc "255"`. -/
def writeHeightXPixel (a city : ℕ) (i : Fin 4) : ℕ × ℕ × ℕ × ℕ :=
  (writeHeightXRed a i, byteSat (cityTermX city i), 0, 255)

/-- Band 1 (R) of `height.png`: the gdal formula `round(A * range)` with
`range = 255 / 1020`, saturated on the Byte write. -/
def writeHeightRed (a : ℕ) : ℕ :=
  byteSat (round ((a : ℚ) * (255 / 1020)))

/-- The full RGBA pixel written by `_write_height` for `height.png`
when a city layer is present. -/
def writeHeightPixel (a city : ℕ) : ℕ × ℕ × ℕ × ℕ :=
  (writeHeightRed a, byteSat (cityTermSingle city), 0, 255)

/-!
## The blend stage (step 10 of `_create_height`), continuous part

The gdal formula assembled in `_create_height` is, with `A` the downsampled
terrain (`lores_terrain`), `B` the downsampled mask weight
(`lores_mask_weight`), `C` the coast distance (`lores_bathy_gradient`) and
`D` the gap-filled shoreline slope (`lores_bathy_slope`):

`(A * pow(B, wr)) + (bathy * (1 - pow(B, wr)))` where
`bathy = maximum(-80, minimum(-(C * (D / 100.0)), -(C / 153.6 * 5.9607843137)))`
and `wr` is the selected shoreline-bias value.  Note `B` is the
final-resolution (downsampled) mask, not `hires_mask`.
-/

/-- The synthetic bathymetry value of the blend formula:
`maximum(-80, minimum(-(C * (D / 100.0)), -(C / pixel_size * height_step)))`. -/
noncomputable def bathyDepth (dist slope : ℝ) : ℝ :=
  max (-80) (min (-(dist * (slope / 100))) (-(dist / 153.6 * 5.9607843137)))

/-- The continuous blended surface of `_create_height`: terrain and
synthetic bathymetry interpolated by the weight `pow(B, water_retention)`
computed on the downsampled mask `B`. -/
noncomputable def blendSurface (terrain mask dist slope bias : ℝ) : ℝ :=
  terrain * mask ^ bias + bathyDepth dist slope * (1 - mask ^ bias)

/-- The blended surface as the spec words it: `terrain·w + depth·(1−w)`
with `w = pow(m, bias)` and
`depth = max(−80, min(−(coastDistance·slope/100), −(coastDistance/pixelSize·stepHeight)))`,
`pixelSize = 153.6`, `stepHeight = 5.9607843137`. -/
noncomputable def blendSurfaceSpec (terrain mask dist slope bias : ℝ) : ℝ :=
  terrain * mask ^ bias +
    max (-80) (min (-(dist * slope / 100)) (-(dist / 153.6 * 5.9607843137))) *
      (1 - mask ^ bias)

/-- The quantization of step 10 over the reals, exactly as the gdal
formula writes it. -/
noncomputable def quantizeR (v : ℝ) : ℤ :=
  round (max 0 (min (v + (80 - 2.5098039219)) 6080) * (1 / 5.9607843137))

/-!
## The vtm manifest writer (`_write_vtm`)

The method writes `{output_folder_path.name}.vtm` whose content is one
f-string, a concatenation of lines each terminated by `\n` (and the file is
opened with `newline="\n"`, so the line endings stay Unix).  The engine has
latitude and longitude switched, and the code preserves that: the
`longitude =` line carries `map_area["latitude"]` and the `latitude =` line
carries `map_area["longitude"]`.
-/

/-- The lines of the vtm manifest, in the order `_write_vtm` writes them.
The string parameters are the already-formatted field values. -/
def vtmLines (mapID lat lon biome edge coast chunks : String) : List String :=
  "VTMapCustom" ::
  "\x7b" ::
  ("\tmapID = " ++ mapID) ::
  "\tmapName = " ::
  "\tmapDescription = " ::
  "\tmapType = HeightMap" ::
  ("\tedgeMode = " ++ edge) ::
  ("\tlongitude = " ++ lat) ::
  ("\tlatitude = " ++ lon) ::
  "\tcloudHeightOffset = -1" ::
  ((if edge = "Coast" then [("\tcoastSide = " ++ coast)] else []) ++
   [("\tbiome = " ++ biome), "\tseed = seed", ("\tmapSize = " ++ chunks),
    "\tTerrainSettings", "\t\x7b", "\t\x7d", "\x7d"])

/-- The full manifest text: every line followed by a bare `\n` (Unix line
endings, exactly as the f-string concatenation produces). -/
def vtmContent (mapID lat lon biome edge coast chunks : String) : String :=
  String.join ((vtmLines mapID lat lon biome edge coast chunks).map (fun l => l ++ "\n"))

/-- The manifest file name: `f"{output_folder_path.name}.vtm"` where the
folder name is also the `mapID`. -/
def vtmFileName (mapID : String) : String :=
  mapID ++ ".vtm"

/-!
## Falloff-distance bathymetry strategy (claim C5)

Modelled from the spec: the falloff-distance strategy is the second
export-algorithm variant of this repository and its implementation is not
among the files under `src/`; only the slope-projection variant
(`VtolExportMapAlgorithmV2`) is.  Per the spec it computes distance-to-shore
capped at `waterFalloffDistance / horizontalResolution` pixels, maps a
capped distance onto the 12 reserved near-shore water-depth steps via
`round(12 − (distance−1)·12/(maxDistance−1))` and holds the minimum encoded
depth beyond the cap.  `HORIZONTAL_RESOLUTION = 153.6` is the source's
class constant.
-/

/-- Modelled from the spec: the two selectable bathymetry strategies of
the exporter (the slope-projection variant is the one in `src/`). -/
inductive BathymetryStrategy where
  | slopeProjection : BathymetryStrategy
  | falloffDistance : BathymetryStrategy
deriving DecidableEq

/-- Modelled from the spec: both strategies must be supported as
selectable alternatives. -/
def bathymetryStrategies : List BathymetryStrategy :=
  [BathymetryStrategy.slopeProjection, BathymetryStrategy.falloffDistance]

/-- Modelled from the spec: the distance cap in pixels,
`waterFalloffDistance / horizontalResolution`. -/
def maxFalloffPixels (waterFalloffDistance : ℚ) : ℚ :=
  waterFalloffDistance / HORIZONTAL_RESOLUTION

/-- Modelled from the spec: the distance-to-shore field is capped at
`maxDistance` pixels. -/
def falloffCappedDistance (d maxD : ℚ) : ℚ :=
  min d maxD

/-- Modelled from the spec: the capped distance maps linearly onto the 12
reserved near-shore water-depth steps via
`round(12 − (distance−1)·12/(maxDistance−1))`. -/
def falloffDepthStep (d maxD : ℚ) : ℤ :=
  round (12 - (falloffCappedDistance d maxD - 1) * 12 / (maxD - 1))

/-!
## City burner (`_burn_cities`)

The method sorts the city features ascending by their `City Level`
attribute with Python's stable `sorted`, re-indexes them sequentially
(GDAL orders by `fid`), and rasterizes with `gdal:rasterize`, whose paint
order is input feature order with later features winning.  Features are
modelled with an abstract pixel-coverage predicate; the rasterization is
the left fold that lets each covering feature overwrite the accumulator,
starting from the background value `0` (`INIT: 0`).
-/

/-- A polygon city feature: its `City Level` attribute and the set of
pixels its geometry covers on the target grid. -/
structure CityFeature where
  level : ℕ
  covers : ℕ → Bool

/-- Ordering of city features by their `City Level` attribute, the key of
the Python `sorted` call. -/
def cityLE (a b : CityFeature) : Prop := a.level ≤ b.level

instance : DecidableRel cityLE :=
  fun a b => inferInstanceAs (Decidable (a.level ≤ b.level))

instance : IsTotal CityFeature cityLE :=
  ⟨fun a b => Nat.le_total a.level b.level⟩

instance : IsTrans CityFeature cityLE :=
  ⟨fun _ _ _ h1 h2 => le_trans h1 h2⟩

/-- The stable ascending sort by city level performed before burning
(Python's `sorted(city_layer.getFeatures(), key=lambda f: f["City Level"])`;
insertion sort is a stable sort realizing the same ascending order). -/
def sortCities (l : List CityFeature) : List CityFeature :=
  List.insertionSort cityLE l

/-- Rasterization with "later feature wins" paint order, background `0`:
the per-pixel value of `gdal:rasterize` over the feature list. -/
def paintCities (l : List CityFeature) (p : ℕ) : ℕ :=
  l.foldl (fun acc f => if f.covers p then f.level else acc) 0

/-- The per-pixel value of the burned city raster produced by
`_burn_cities`: sort ascending by level, then rasterize later-wins. -/
def burnCities (l : List CityFeature) (p : ℕ) : ℕ :=
  paintCities (sortCities l) p

/-- The highest city level among the features covering a pixel
(`0` when no feature covers it). -/
def maxCoverLevel (l : List CityFeature) (p : ℕ) : ℕ :=
  ((l.filter (fun f => f.covers p)).map (fun f => f.level)).foldr max 0

/-!
## Order of validation and pipeline stages (`processAlgorithm`)

`processAlgorithm` first creates the output folder, then `_parse_area`
validates the map-area layer (missing layer, no feature, missing fields —
each raises before anything else runs), then `_create_height` runs the
whole 12-step heightmap pipeline, and only then `_burn_cities` checks the
city layer for the 'City Level' field and raises if absent; the height
images and the vtm manifest are written after that.  The control flow is
embedded as a function from the validity of the inputs to the executed
stage trace plus the raised error, if any.
-/

/-- The externally observable steps of `processAlgorithm`, in source
order. -/
inductive ExportStage where
  | mkOutputFolder : ExportStage
  | parseArea : ExportStage
  | createHeight : ExportStage
  | burnCities : ExportStage
  | writeHeightX : ℕ → ExportStage
  | writeHeight : ExportStage
  | writeVtm : ExportStage
deriving DecidableEq

/-- The validation errors raised by `processAlgorithm` and its helpers. -/
inductive ExportError where
  | areaLayerMissing : ExportError
  | areaFeatureMissing : ExportError
  | areaFieldsMissing : ExportError
  | cityLayerInvalid : ExportError
deriving DecidableEq

/-- The validity of the inputs of one `processAlgorithm` invocation.
`cityLayer = some b` means a city layer was selected and `b` tells whether
it has the 'City Level' field; `none` means no city layer. -/
structure ExportInputs where
  areaLayerFound : Bool
  areaHasFeature : Bool
  areaFieldsValid : Bool
  cityLayer : Option Bool
  debugFiles : Bool

/-- The image/manifest writing steps, in the order the source runs them. -/
def exportWriteStages : List ExportStage :=
  [ExportStage.writeHeightX 0, ExportStage.writeHeightX 1, ExportStage.writeHeightX 2,
   ExportStage.writeHeightX 3, ExportStage.writeHeight, ExportStage.writeVtm]

/-- The stage trace executed by `processAlgorithm` together with the
raised validation error, if any, following the source's control flow. -/
def exportRun (inp : ExportInputs) : List ExportStage × Option ExportError :=
  if ¬ inp.areaLayerFound then
    ([ExportStage.mkOutputFolder], some ExportError.areaLayerMissing)
  else if ¬ inp.areaHasFeature then
    ([ExportStage.mkOutputFolder], some ExportError.areaFeatureMissing)
  else if ¬ inp.areaFieldsValid then
    ([ExportStage.mkOutputFolder], some ExportError.areaFieldsMissing)
  else
    match inp.cityLayer with
    | none =>
        ([ExportStage.mkOutputFolder, ExportStage.parseArea, ExportStage.createHeight] ++
          exportWriteStages, none)
    | some hasLevel =>
        if hasLevel then
          ([ExportStage.mkOutputFolder, ExportStage.parseArea, ExportStage.createHeight,
            ExportStage.burnCities] ++ exportWriteStages, none)
        else
          ([ExportStage.mkOutputFolder, ExportStage.parseArea, ExportStage.createHeight],
            some ExportError.cityLayerInvalid)

/-- Whether a stage writes files into the output folder: `_create_height`
does so exactly when debug composition files are requested; the image and
manifest writers always do. -/
def stageWritesOutput (s : ExportStage) (debug : Bool) : Bool :=
  match s with
  | ExportStage.createHeight => debug
  | ExportStage.writeHeightX _ => true
  | ExportStage.writeHeight => true
  | ExportStage.writeVtm => true
  | _ => false

/-- Whether a stage is one of the spec's pipeline stages (classifier,
bathymetry, blender, quantizer run inside `_create_height`; the city
burner and the writers are the remaining pipeline work). -/
def isPipelineStage (s : ExportStage) : Bool :=
  match s with
  | ExportStage.createHeight => true
  | ExportStage.burnCities => true
  | ExportStage.writeHeightX _ => true
  | ExportStage.writeHeight => true
  | _ => false

/-!
## Theorems
-/

/-!
## Theorems for claims C3 and C4
-/

/-- C3: for every input blend value (including values far outside the
representable range) the quantized height lies in `[0, 1020]`; values whose
offset form is at or below `0` clamp to step `0`, values at or above `6080`
clamp to step `1020`.  The function is total: nothing wraps and nothing is
raised. -/
theorem quantize_clamps_to_height_range (v : ℚ) :
    0 ≤ quantize v ∧ quantize v ≤ 1020 ∧
      (v + zeroOffset ≤ 0 → quantize v = 0) ∧
      (6080 ≤ v + zeroOffset → quantize v = 1020) := by
  have hstep : (0 : ℚ) < 1 / heightStep := by norm_num [heightStep]
  have hc0 : (0 : ℚ) ≤ max 0 (min (v + zeroOffset) 6080) := le_max_left _ _
  have hc6080 : max 0 (min (v + zeroOffset) 6080) ≤ 6080 := by
    apply max_le (by norm_num) (min_le_right _ _)
  refine ⟨?_, ?_, ?_, ?_⟩
  · rw [quantize, round_eq]
    have : (0 : ℚ) ≤ max 0 (min (v + zeroOffset) 6080) * (1 / heightStep) :=
      mul_nonneg hc0 (le_of_lt hstep)
    have h12 : (0 : ℚ) ≤ max 0 (min (v + zeroOffset) 6080) * (1 / heightStep) + 1 / 2 := by
      linarith
    exact_mod_cast Int.le_floor.mpr (by exact_mod_cast h12)
  · rw [quantize, round_eq]
    have hmul : max 0 (min (v + zeroOffset) 6080) * (1 / heightStep) ≤ 6080 * (1 / heightStep) :=
      mul_le_mul_of_nonneg_right hc6080 (le_of_lt hstep)
    have hlt : max 0 (min (v + zeroOffset) 6080) * (1 / heightStep) + 1 / 2 < 1021 := by
      have : (6080 : ℚ) * (1 / heightStep) + 1 / 2 < 1021 := by norm_num [heightStep]
      linarith
    have := Int.floor_lt.mpr (show max 0 (min (v + zeroOffset) 6080) * (1 / heightStep) + 1 / 2
        < ((1021 : ℤ) : ℚ) by exact_mod_cast hlt)
    omega
  · intro h
    have hmin : min (v + zeroOffset) 6080 ≤ 0 := le_trans (min_le_left _ _) h
    have : max 0 (min (v + zeroOffset) 6080) = 0 := max_eq_left hmin
    rw [quantize, this, zero_mul, round_zero]
  · intro h
    have hmin : min (v + zeroOffset) 6080 = 6080 := min_eq_right h
    have hmax : max 0 (min (v + zeroOffset) 6080) = 6080 := by
      rw [hmin]; exact max_eq_right (by norm_num)
    rw [quantize, hmax, round_eq, Int.floor_eq_iff]
    constructor
    · push_cast
      norm_num [heightStep]
    · push_cast
      norm_num [heightStep]

/-- Witness for C3 at concrete inputs: `-1000` (far below range) quantizes
to step `0` and `100000` (far above range) quantizes to step `1020`. -/
theorem quantize_clamps_to_height_range_witness :
    quantize (-1000) = 0 ∧ quantize 100000 = 1020 :=
  ⟨(quantize_clamps_to_height_range (-1000)).2.2.1 (by norm_num [zeroOffset]),
   (quantize_clamps_to_height_range 100000).2.2.2 (by norm_num [zeroOffset])⟩

/-- C4 counterexample: the claim says a pixel whose elevation equals the
sea level resolves to land (mask value `1`, the land side).  The code gives
mask value `0` (water) there: with `elevation = 0` and `sea_level = 0` the
classifier returns `0`, while a genuinely higher pixel returns the land
value `1`. -/
theorem classifyLand_boundary_is_water :
    classifyLand 0 0 = 0 ∧ classifyLand 1 0 = 1 ∧ (0 : ℕ) ≠ 1 := by
  refine ⟨?_, ?_, by decide⟩
  · simp [classifyLand, hiresTerrain, hiresMask]
  · norm_num [classifyLand, hiresTerrain, hiresMask]

/-- C1: for every quantized height value and every image index `i` in
`0..3`, the R value of `height{i}.png` is `clamp(rawSteps - i*255, 0, 255)`;
in particular `rawSteps = 1020` gives R = 255 in all four images and
`rawSteps = 0` gives R = 0 in all four. -/
theorem heightX_red_is_clamped_slice (a : ℕ) (i : Fin 4) :
    (writeHeightXRed a i : ℤ) = clamp255 ((a : ℤ) - 255 * i.val) ∧
      writeHeightXRed 1020 i = 255 ∧ writeHeightXRed 0 i = 0 := by
  refine ⟨?_, ?_, ?_⟩
  · unfold writeHeightXRed byteSat clamp255
    rcases le_or_lt (255 * (i.val : ℤ)) (a : ℤ) with h | h
    · rw [if_pos h]
      have h0 : (0 : ℤ) ≤ max 0 (min ((a : ℤ) - 255 * i.val) 255) := le_max_left _ _
      omega
    · rw [if_neg (not_le.mpr h)]
      omega
  · fin_cases i <;> decide
  · fin_cases i <;> decide

/-- C8 counterexample: the claim says the city color is burned into the
G, B and A channels of each height image.  In the code the B band is the
constant gdal term `--calc "0"` and the A band the constant `--calc "255"`:
at a level-5 city pixel and at a no-city pixel of `height3.png` the B and A
values coincide (`0` and `255`), so no city data reaches B or A; only the G
value differs (`229` vs `0`). -/
theorem cityBurn_not_in_blue_or_alpha :
    (writeHeightXPixel 0 5 (3 : Fin 4)).2.2.1 = (writeHeightXPixel 0 0 (3 : Fin 4)).2.2.1 ∧
      (writeHeightXPixel 0 5 (3 : Fin 4)).2.2.2 = (writeHeightXPixel 0 0 (3 : Fin 4)).2.2.2 ∧
      (writeHeightXPixel 0 5 (3 : Fin 4)).2.2.1 = 0 ∧
      (writeHeightXPixel 0 5 (3 : Fin 4)).2.2.2 = 255 ∧
      (writeHeightXPixel 0 5 (3 : Fin 4)).2.1 = 229 ∧
      (writeHeightXPixel 0 0 (3 : Fin 4)).2.1 = 0 := by
  decide

/-- C8 (amended): for every height image and every pixel with city level
1-5, the city color from `CITY_TYPE_BURNS` is burned into the G channel
only (column `i + 1` for `height{i}.png`, column `0` for `height.png`),
while the B channel is the constant `0` and the A channel the constant
`255`. -/
theorem cityBurn_green_channel (a lvl : ℕ) (i : Fin 4)
    (h1 : 1 ≤ lvl) (h2 : lvl ≤ 5) :
    (writeHeightXPixel a lvl i).2.1 = (CITY_TYPE_BURNS.getD (lvl - 1) []).getD (i.val + 1) 0 ∧
      (writeHeightXPixel a lvl i).2.2.1 = 0 ∧
      (writeHeightXPixel a lvl i).2.2.2 = 255 ∧
      (writeHeightPixel a lvl).2.1 = (CITY_TYPE_BURNS.getD (lvl - 1) []).getD 0 0 ∧
      (writeHeightPixel a lvl).2.2.1 = 0 ∧
      (writeHeightPixel a lvl).2.2.2 = 255 := by
  interval_cases lvl <;> fin_cases i <;>
    exact ⟨rfl, rfl, rfl, rfl, rfl, rfl⟩

/-- Witness for C8 (amended) at a concrete pixel: level 5, image index 3,
raw value 7; the G channel receives `229` from the table and `51` in the
single-channel image. -/
theorem cityBurn_green_channel_witness :
    (writeHeightXPixel 7 5 (3 : Fin 4)).2.1 = 229 ∧
      (writeHeightXPixel 7 5 (3 : Fin 4)).2.2.1 = 0 ∧
      (writeHeightXPixel 7 5 (3 : Fin 4)).2.2.2 = 255 ∧
      (writeHeightPixel 7 5).2.1 = 249 := by
  have h := cityBurn_green_channel 7 5 (3 : Fin 4) (by norm_num) (by norm_num)
  exact ⟨h.1, h.2.1, h.2.2.1, h.2.2.2.1⟩

/-- The real-valued quantizer agrees with the rational one on rational
inputs (the gdal constants are exact decimals). -/
theorem quantizeR_ratCast (q : ℚ) : quantizeR (q : ℝ) = quantize q := by
  have h : max (0 : ℝ) (min ((q : ℝ) + (80 - 2.5098039219)) 6080) * (1 / 5.9607843137)
      = ((max 0 (min (q + (80 - 2.5098039219)) 6080) * (1 / 5.9607843137) : ℚ) : ℝ) := by
    push_cast [Rat.cast_min, Rat.cast_max]
    norm_num
  unfold quantizeR quantize zeroOffset heightStep
  rw [h, Rat.round_cast]

/-- C2: for every pixel, the continuous blended surface of the blend stage
equals `terrain·w + depth·(1−w)` with `w = pow(m, bias)` taken on the
downsampled mask weight `m`, the bias drawn from
`SHORELINE_BIAS_VALUES = [0.2, 0.5, 1.0, 2.5, 5.0]`, and
`depth = max(−80, min(−(coastDistance·slope/100), −(coastDistance/pixelSize·stepHeight)))`
with `pixelSize = 153.6` and `stepHeight = 5.9607843137`. -/
theorem blend_matches_spec (idx : Fin 5) (terrain mask dist slope : ℝ) :
    blendSurface terrain mask dist slope ((waterRetention idx : ℚ) : ℝ) =
      blendSurfaceSpec terrain mask dist slope ((waterRetention idx : ℚ) : ℝ) ∧
      waterRetention idx ∈ SHORELINE_BIAS_VALUES ∧
      SHORELINE_BIAS_VALUES = [0.2, 0.5, 1.0, 2.5, 5.0] := by
  refine ⟨?_, ?_, rfl⟩
  · unfold blendSurface blendSurfaceSpec bathyDepth
    rw [mul_div_assoc]
  · fin_cases idx <;> norm_num [waterRetention, SHORELINE_BIAS_VALUES]

/-- C10: the calibration constant `80 − 2.5098039219` equals exactly 13
height steps of `5.9607843137`; a pixel with downsampled mask weight `1`
and downsampled terrain `0` quantizes to step `13`, and the deepest
synthetic depth `−80` quantizes to step `0`, leaving the 13 steps `0..12`
below the land zero reference for water. -/
theorem calibration_is_thirteen_steps :
    zeroOffset = 13 * heightStep ∧
      (∀ dist slope bias : ℝ, quantizeR (blendSurface 0 1 dist slope bias) = 13) ∧
      quantizeR (-80) = 0 := by
  refine ⟨by norm_num [zeroOffset, heightStep], ?_, ?_⟩
  · intro dist slope bias
    have hb : blendSurface 0 1 dist slope bias = 0 := by
      unfold blendSurface
      rw [Real.one_rpow]
      ring
    rw [hb]
    have h0 : ((0 : ℚ) : ℝ) = (0 : ℝ) := by norm_num
    rw [← h0, quantizeR_ratCast, quantize, round_eq]
    norm_num [zeroOffset, heightStep, min_def, max_def]
  · have h80 : ((-80 : ℚ) : ℝ) = (-80 : ℝ) := by norm_num
    rw [← h80, quantizeR_ratCast, quantize, round_eq]
    norm_num [zeroOffset, heightStep, min_def, max_def]

/-- C9: the manifest is written as `<mapID>.vtm`, with every line
terminated by a bare `\n`; the `longitude =` line carries the map area's
latitude and the `latitude =` line the map area's longitude (the engine's
swapped convention), followed by biome, seed, mapSize and a nested empty
TerrainSettings block. -/
theorem vtm_manifest_layout (mapID lat lon biome edge coast chunks : String) :
    vtmFileName mapID = mapID ++ ".vtm" ∧
      (vtmLines mapID lat lon biome edge coast chunks).getD 2 "" = "\tmapID = " ++ mapID ∧
      (vtmLines mapID lat lon biome edge coast chunks).getD 7 "" = "\tlongitude = " ++ lat ∧
      (vtmLines mapID lat lon biome edge coast chunks).getD 8 "" = "\tlatitude = " ++ lon ∧
      (vtmLines mapID lat lon biome edge coast chunks).drop
          (if edge = "Coast" then 11 else 10) =
        [("\tbiome = " ++ biome), "\tseed = seed", ("\tmapSize = " ++ chunks),
         "\tTerrainSettings", "\t\x7b", "\t\x7d", "\x7d"] ∧
      vtmContent mapID lat lon biome edge coast chunks =
        String.join ((vtmLines mapID lat lon biome edge coast chunks).map (fun l => l ++ "\n")) := by
  refine ⟨rfl, rfl, rfl, rfl, ?_, rfl⟩
  by_cases h : edge = "Coast"
  · simp [vtmLines, h]
  · simp [vtmLines, h]

/-- C5: the falloff-distance strategy is a selectable alternative to
slope projection; within the cap the encoded depth is
`round(12 − (d−1)·12/(maxDistance−1))` with
`maxDistance = waterFalloffDistance/horizontalResolution`, a shore-adjacent
pixel (`d = 1`) encodes the maximum reserved step 12, and beyond the cap
the encoding holds at its value at the cap (the minimum encoded depth). -/
theorem falloff_strategy_mapping (wfd d : ℚ) (hmax : 1 < maxFalloffPixels wfd) :
    BathymetryStrategy.falloffDistance ∈ bathymetryStrategies ∧
      BathymetryStrategy.slopeProjection ∈ bathymetryStrategies ∧
      (1 ≤ d → d ≤ maxFalloffPixels wfd →
        falloffDepthStep d (maxFalloffPixels wfd) =
          round (12 - (d - 1) * 12 / (maxFalloffPixels wfd - 1))) ∧
      (maxFalloffPixels wfd ≤ d →
        falloffDepthStep d (maxFalloffPixels wfd) =
          falloffDepthStep (maxFalloffPixels wfd) (maxFalloffPixels wfd)) ∧
      falloffDepthStep 1 (maxFalloffPixels wfd) = 12 := by
  refine ⟨by simp [bathymetryStrategies], by simp [bathymetryStrategies], ?_, ?_, ?_⟩
  · intro _ h2
    unfold falloffDepthStep falloffCappedDistance
    rw [min_eq_left h2]
  · intro h
    unfold falloffDepthStep falloffCappedDistance
    rw [min_eq_right h, min_self]
  · unfold falloffDepthStep falloffCappedDistance
    rw [min_eq_left (le_of_lt hmax)]
    norm_num

/-- Witness for C5 with `waterFalloffDistance = 1536` (so the cap is 10
pixels at 153.6 m resolution): a pixel at distance 5 maps through the
linear formula (to step 7), and a shore-adjacent pixel encodes step 12. -/
theorem falloff_strategy_mapping_witness :
    falloffDepthStep 5 (maxFalloffPixels 1536) =
        round (12 - ((5 : ℚ) - 1) * 12 / (maxFalloffPixels 1536 - 1)) ∧
      falloffDepthStep 1 (maxFalloffPixels 1536) = 12 ∧
      falloffDepthStep 5 (maxFalloffPixels 1536) = 7 := by
  have hmax : (1 : ℚ) < maxFalloffPixels 1536 := by
    norm_num [maxFalloffPixels, HORIZONTAL_RESOLUTION]
  have h := falloff_strategy_mapping 1536 5 hmax
  refine ⟨h.2.2.1 (by norm_num) ?_, h.2.2.2.2, ?_⟩
  · norm_num [maxFalloffPixels, HORIZONTAL_RESOLUTION]
  · have hm : maxFalloffPixels 1536 = 10 := by
      norm_num [maxFalloffPixels, HORIZONTAL_RESOLUTION]
    rw [falloffDepthStep, falloffCappedDistance, hm, round_eq]
    norm_num [min_def]

theorem maxCoverLevel_cons (f : CityFeature) (l : List CityFeature) (p : ℕ) :
    maxCoverLevel (f :: l) p =
      if f.covers p then max f.level (maxCoverLevel l p) else maxCoverLevel l p := by
  unfold maxCoverLevel
  rw [List.filter_cons]
  by_cases h : f.covers p <;> simp [h]

theorem le_maxCoverLevel {g : CityFeature} {l : List CityFeature} {p : ℕ}
    (hg : g ∈ l) (hc : g.covers p = true) : g.level ≤ maxCoverLevel l p := by
  induction l with
  | nil => cases hg
  | cons f rest ih =>
    rw [maxCoverLevel_cons]
    rcases List.mem_cons.mp hg with rfl | hmem
    · rw [if_pos hc]
      exact le_max_left _ _
    · by_cases h : f.covers p
      · rw [if_pos h]
        exact le_trans (ih hmem) (le_max_right _ _)
      · rw [if_neg h]
        exact ih hmem

theorem maxCoverLevel_eq_zero {l : List CityFeature} {p : ℕ}
    (h : ∀ g ∈ l, g.covers p = false) : maxCoverLevel l p = 0 := by
  induction l with
  | nil => rfl
  | cons f rest ih =>
    have hf := h f (List.mem_cons_self f rest)
    rw [maxCoverLevel_cons, if_neg (by simp [hf])]
    exact ih fun g hg => h g (List.mem_cons_of_mem f hg)

theorem paint_sorted (p : ℕ) :
    ∀ l : List CityFeature, l.Sorted cityLE →
      ∀ init : ℕ,
        l.foldl (fun acc f => if f.covers p then f.level else acc) init =
          if l.any (fun f => f.covers p) then maxCoverLevel l p else init := by
  intro l
  induction l with
  | nil =>
    intro _ init
    simp
  | cons f rest ih =>
    intro hs init
    obtain ⟨hf, hrest⟩ := List.sorted_cons.mp hs
    rw [List.foldl_cons, ih hrest]
    by_cases hany : rest.any (fun f => f.covers p) = true
    · rw [if_pos hany]
      have hcons : (f :: rest).any (fun f => f.covers p) = true := by
        simp [List.any_cons, hany]
      rw [if_pos hcons, maxCoverLevel_cons]
      by_cases hc : f.covers p
      · rw [if_pos hc]
        obtain ⟨g, hg, hgc⟩ := List.any_eq_true.mp hany
        exact (max_eq_right (le_trans (hf g hg) (le_maxCoverLevel hg hgc))).symm
      · rw [if_neg hc]
    · rw [if_neg hany]
      have hnone : ∀ g ∈ rest, g.covers p = false := by
        intro g hg
        by_contra hgg
        exact hany (List.any_eq_true.mpr ⟨g, hg, by simpa using hgg⟩)
      by_cases hc : f.covers p
      · have hcons : (f :: rest).any (fun f => f.covers p) = true := by
          simp [List.any_cons, hc]
        rw [if_pos hcons, maxCoverLevel_cons, if_pos hc,
          maxCoverLevel_eq_zero hnone, if_pos hc]
        exact (max_eq_left (Nat.zero_le _)).symm
      · have hcons : ¬ (f :: rest).any (fun f => f.covers p) = true := by
          simp [List.any_cons, hc, hany]
        rw [if_neg hcons, if_neg hc]

theorem foldr_max_perm {l l' : List ℕ} (h : l.Perm l') :
    l.foldr max 0 = l'.foldr max 0 := by
  induction h with
  | nil => rfl
  | cons x _ ih => simp [List.foldr_cons, ih]
  | swap x y l => simp [List.foldr_cons, max_left_comm]
  | trans _ _ ih1 ih2 => exact ih1.trans ih2

theorem maxCoverLevel_perm {l l' : List CityFeature} (h : l.Perm l') (p : ℕ) :
    maxCoverLevel l p = maxCoverLevel l' p :=
  foldr_max_perm (((h.filter _).map _))

theorem burnCities_eq_maxCover (l : List CityFeature) (p : ℕ) :
    burnCities l p = maxCoverLevel l p := by
  unfold burnCities paintCities sortCities
  rw [paint_sorted p _ (List.sorted_insertionSort cityLE l)]
  have hperm := List.perm_insertionSort cityLE l
  by_cases hany : (List.insertionSort cityLE l).any (fun f => f.covers p) = true
  · rw [if_pos hany]
    exact maxCoverLevel_perm hperm p
  · rw [if_neg hany]
    have hnone : ∀ g ∈ List.insertionSort cityLE l, g.covers p = false := by
      intro g hg
      by_contra hgg
      exact hany (List.any_eq_true.mpr ⟨g, hg, by simpa using hgg⟩)
    rw [← maxCoverLevel_perm hperm p, maxCoverLevel_eq_zero hnone]

/-- C6: for every feature list and pixel, the burned city raster holds the
highest city level among the features covering that pixel, and the result
is independent of the order in which the features appear in the input
layer (any permutation gives the same raster). -/
theorem city_overlap_resolves_to_max (feats featsPerm : List CityFeature) (p : ℕ)
    (h : feats.Perm featsPerm) :
    burnCities feats p = maxCoverLevel feats p ∧
      burnCities featsPerm p = burnCities feats p := by
  refine ⟨burnCities_eq_maxCover feats p, ?_⟩
  rw [burnCities_eq_maxCover, burnCities_eq_maxCover]
  exact maxCoverLevel_perm h.symm p

/-- Witness for C6: two everywhere-overlapping polygons with levels 2 and
4, in both input orders; the overlap pixel resolves to level 4 either
way. -/
theorem city_overlap_resolves_to_max_witness :
    (burnCities [⟨2, fun _ => true⟩, ⟨4, fun _ => true⟩] 0 =
        maxCoverLevel [⟨2, fun _ => true⟩, ⟨4, fun _ => true⟩] 0 ∧
      burnCities [⟨4, fun _ => true⟩, ⟨2, fun _ => true⟩] 0 =
        burnCities [⟨2, fun _ => true⟩, ⟨4, fun _ => true⟩] 0) ∧
      burnCities [⟨2, fun _ => true⟩, ⟨4, fun _ => true⟩] 0 = 4 :=
  ⟨city_overlap_resolves_to_max _ _ 0 (List.Perm.swap _ _ _), rfl⟩

/-- C4 (amended): the classifier marks a pixel land (`1`) exactly when its
elevation is strictly above the sea level and water (`0`) otherwise; in
particular a boundary pixel with elevation exactly equal to the sea level
resolves to water. -/
theorem classifyLand_strict_threshold (elevation seaLevel : ℚ) :
    classifyLand elevation seaLevel = if seaLevel < elevation then 1 else 0 := by
  unfold classifyLand hiresTerrain hiresMask
  rcases lt_or_le seaLevel elevation with h | h
  · simp [sub_pos.mpr h, h]
  · simp [not_lt.mpr (sub_nonpos.mpr h), not_lt.mpr h]

/-- C7 counterexample: with a valid map area but a city layer lacking the
'City Level' field (and debug files enabled), the validation error is
raised only after the heightmap stage has run: the executed trace contains
`createHeight`, a pipeline stage, which in debug mode has already written
composition files into the output folder. -/
theorem city_validation_after_pipeline_stage :
    exportRun ⟨true, true, true, some false, true⟩ =
        ([ExportStage.mkOutputFolder, ExportStage.parseArea, ExportStage.createHeight],
          some ExportError.cityLayerInvalid) ∧
      ExportStage.createHeight ∈ (exportRun ⟨true, true, true, some false, true⟩).1 ∧
      isPipelineStage ExportStage.createHeight = true ∧
      stageWritesOutput ExportStage.createHeight true = true := by
  refine ⟨rfl, ?_, rfl, rfl⟩
  decide

/-- C7 (amended): every map-area validation error (missing layer, empty
layer, missing fields) is raised before any pipeline stage runs; the
city-layer 'City Level' validation error is raised only after the
heightmap stage, though before the city burn and before any height image
or manifest is written; when debug files are off, no validation error
leaves any output file behind. -/
theorem validation_error_trace (inp : ExportInputs) (err : ExportError)
    (h : (exportRun inp).2 = some err) :
    (ExportStage.writeHeight ∉ (exportRun inp).1 ∧
        ExportStage.writeVtm ∉ (exportRun inp).1 ∧
        ExportStage.burnCities ∉ (exportRun inp).1 ∧
        (∀ i, ExportStage.writeHeightX i ∉ (exportRun inp).1)) ∧
      (err ≠ ExportError.cityLayerInvalid →
        (exportRun inp).1 = [ExportStage.mkOutputFolder]) ∧
      (err = ExportError.cityLayerInvalid →
        (exportRun inp).1 =
          [ExportStage.mkOutputFolder, ExportStage.parseArea, ExportStage.createHeight]) ∧
      (inp.debugFiles = false →
        ∀ s ∈ (exportRun inp).1, stageWritesOutput s inp.debugFiles = false) := by
  obtain ⟨a, b, c, city, dbg⟩ := inp
  cases a <;> cases b <;> cases c <;> cases dbg <;>
    rcases city with _ | hl <;> try cases hl
  all_goals simp [exportRun, exportWriteStages] at h
  all_goals subst h
  all_goals simp [exportRun, exportWriteStages, stageWritesOutput]

/-- Witness for C7 (amended) at concrete inputs: a missing map-area layer
stops right after the folder creation, and an invalid city layer stops
right after the heightmap stage. -/
theorem validation_error_trace_witness :
    (exportRun ⟨false, true, true, none, false⟩).1 = [ExportStage.mkOutputFolder] ∧
      (exportRun ⟨true, true, true, some false, false⟩).1 =
        [ExportStage.mkOutputFolder, ExportStage.parseArea, ExportStage.createHeight] :=
  ⟨(validation_error_trace ⟨false, true, true, none, false⟩ ExportError.areaLayerMissing
      rfl).2.1 (by decide),
   (validation_error_trace ⟨true, true, true, some false, false⟩ ExportError.cityLayerInvalid
      rfl).2.2.1 rfl⟩

end VtolExport
